import Mathlib

/-!
Shallow embedding of the notes-app-express repository:
  * `src/src/routes/notes.ts` — the six route handlers (`notesRouter`);
  * `src/unnamed/part_000` — the `hasAuthentication` middleware.
The in-memory data layer (`src/services/data.ts`: `getNotes`, `getNoteById`,
`addNote`, `updateNote`, `deleteNoteById`) is not present in the sources,
so it is modelled from the specification (spec.md §3): an in-memory list of
notes, each with a storage-assigned unique integer id.
-/

namespace NotesApp

/-- A note. Modelled from the spec: `src/types/notes.ts` is not among the
sources; spec.md §3 defines a Note as
`{id: integer (unique, assigned by storage), title: string, content: string,
user: string (owner identity)}`. -/
structure Note where
  id : Int
  title : String
  content : String
  user : String
deriving Repr, DecidableEq

/-- Modelled from the spec: `getNotes` of the missing `src/services/data.ts`
returns the whole in-memory collection. -/
def getNotes (s : List Note) : List Note := s

/-- Modelled from the spec: `getNoteById` of the missing `src/services/data.ts`
returns the note of the collection whose `id` equals the argument, if any.
The handlers call it on the result of `parseInt`; a `NaN` argument (`parseInt`
failure) compares unequal to every id, which the handlers reach through the
`none` branch of the parse (see `lookupRaw`). -/
def getNoteById (s : List Note) (i : Int) : Option Note :=
  s.find? (fun n => n.id == i)

/-- Modelled from the spec: the id `addNote` assigns. spec.md §3 requires only
that storage auto-assigns an id that is unique in the collection; one more
than the maximum existing id (0 for an empty collection) satisfies that. -/
def freshId (s : List Note) : Int :=
  (s.map Note.id).foldr max 0 + 1

/-- Modelled from the spec: `addNote` of the missing `src/services/data.ts`
appends a note with a storage-assigned fresh id. -/
def addNote (s : List Note) (t c u : String) : List Note :=
  s ++ [⟨freshId s, t, c, u⟩]

/-- Modelled from the spec: `updateNote` of the missing `src/services/data.ts`
mutates the note with the given id in place, replacing title, content and
user; the id itself is never reassigned (spec.md §3: "mutated in place"). -/
def updateNote (s : List Note) (i : Int) (t c u : String) : List Note :=
  s.map (fun n => if n.id == i then { n with title := t, content := c, user := u } else n)

/-- Modelled from the spec: `deleteNoteById` of the missing
`src/services/data.ts` removes the note with the given id. -/
def deleteNoteById (s : List Note) (i : Int) : List Note :=
  s.filter (fun n => !(n.id == i))

/-- Value of a character as a digit in the given radix, if it is one
(JavaScript `parseInt` digit alphabet: 0-9, a-z, A-Z). -/
def digitVal (radix : Nat) (ch : Char) : Option Nat :=
  let v : Nat :=
    if ch.isDigit then ch.toNat - 48
    else if 'a' ≤ ch && ch ≤ 'z' then ch.toNat - 87
    else if 'A' ≤ ch && ch ≤ 'Z' then ch.toNat - 55
    else 99
  if v < radix then some v else none

/-- Accumulate the longest prefix of digits valid in `radix`, returning the
value read and how many characters were consumed. -/
def digitsVal (radix : Nat) : List Char → Nat → Nat → Nat × Nat
  | [], acc, cnt => (acc, cnt)
  | ch :: rest, acc, cnt =>
    match digitVal radix ch with
    | some v => digitsVal radix rest (acc * radix + v) (cnt + 1)
    | none => (acc, cnt)

/-- JavaScript `parseInt(str)` with the radix argument omitted, as the route
handlers call it on `req.params.id`: skip leading whitespace, read an optional
sign, detect a `0x`/`0X` hex prefix (radix 16, else 10), then read the longest
prefix of valid digits; `NaN` (here `none`) when no digit is read. -/
def parseIntJS (str : String) : Option Int :=
  let cs := str.toList.dropWhile Char.isWhitespace
  let signed : Int × List Char :=
    match cs with
    | '-' :: rest => (-1, rest)
    | '+' :: rest => (1, rest)
    | _ => (1, cs)
  let prefixed : Nat × List Char :=
    match signed.2 with
    | '0' :: 'x' :: rest => (16, rest)
    | '0' :: 'X' :: rest => (16, rest)
    | _ => (10, signed.2)
  let read := digitsVal prefixed.1 prefixed.2 0 0
  if read.2 = 0 then none else some (signed.1 * (read.1 : Int))

/-- A field of a JSON request body as the PATCH handler can observe it through
`??`: absent (`undefined`), `null`, or a string value. -/
inductive Field where
  | undef
  | null
  | str (s : String)
deriving Repr, DecidableEq

/-- JavaScript nullish coalescing `f ?? dflt` as used in the PATCH handler:
`undefined` and `null` fall back to the default, anything else (including the
empty string) is kept. -/
def nullish (f : Field) (dflt : String) : String :=
  match f with
  | .undef => dflt
  | .null => dflt
  | .str s => s

/-- Response body: empty (`res.send()`), a text message, a single note, or an
array of notes. -/
inductive Body where
  | empty
  | text (s : String)
  | note (n : Note)
  | notes (ns : List Note)
deriving Repr, DecidableEq

structure Response where
  status : Nat
  body : Body
deriving Repr, DecidableEq

/-- The German not-found message of the handlers:
`Die Notiz mit ID ${id} wurde nicht gefunden.` with the rendered id spliced
in (a failed `parseInt` renders as `NaN`). -/
def notFoundMsg (idStr : String) : String :=
  "Die Notiz mit ID " ++ idStr ++ " wurde nicht gefunden."

/-- Request body of POST / and PUT /:id — `req.body.title`, `req.body.content`,
`req.body.user` read as strings. -/
structure NoteBody where
  title : String
  content : String
  user : String
deriving Repr, DecidableEq

/-- Request body of PATCH /:id — each field may be absent, null or a string. -/
structure PatchBody where
  title : Field
  content : Field
  user : Field
deriving Repr, DecidableEq

/-- `notesRouter.post('/')`: reads title, content, user from the body, calls
`addNote`, responds 204 with no body. No ownership comparison appears in the
handler. -/
def postNotes (b : NoteBody) (s : List Note) : Response × List Note :=
  (⟨204, .empty⟩, addNote s b.title b.content b.user)

/-- `notesRouter.get('/')`: responds 200 with the notes whose `user` equals
the authenticated identity `req.user`. -/
def getNotesRoute (authUser : String) (s : List Note) : Response × List Note :=
  (⟨200, .notes ((getNotes s).filter (fun n => n.user == authUser))⟩, s)

/-- `notesRouter.get('/:id')`: parses the id, looks the note up, responds 404
if it is not found and otherwise 200 with the note. The handler binds
`authenticatedUser = req.user` but never uses it: no ownership check is
performed. A failed `parseInt` (NaN) finds no note and lands in the 404
branch with `NaN` rendered in the message. -/
def getNote (rawId : String) (s : List Note) : Response × List Note :=
  match parseIntJS rawId with
  | none => (⟨404, .text (notFoundMsg "NaN")⟩, s)
  | some i =>
    match getNoteById s i with
    | none => (⟨404, .text (notFoundMsg (toString i))⟩, s)
    | some n => (⟨200, .note n⟩, s)

/-- `notesRouter.put('/:id')`: 404 when the id finds no note (including a
failed parse), otherwise `updateNote` with the body's title, content, user
and 204. -/
def putNote (rawId : String) (b : NoteBody) (s : List Note) : Response × List Note :=
  match parseIntJS rawId with
  | none => (⟨404, .text (notFoundMsg "NaN")⟩, s)
  | some i =>
    match getNoteById s i with
    | none => (⟨404, .text (notFoundMsg (toString i))⟩, s)
    | some _ => (⟨204, .empty⟩, updateNote s i b.title b.content b.user)

/-- `notesRouter.patch('/:id')`: 404 when the id finds no note, otherwise
`updateNote` with each field taken from the body when non-nullish and from
the old note otherwise (`req.body.x ?? oldNote.x`), and 204. -/
def patchNote (rawId : String) (b : PatchBody) (s : List Note) : Response × List Note :=
  match parseIntJS rawId with
  | none => (⟨404, .text (notFoundMsg "NaN")⟩, s)
  | some i =>
    match getNoteById s i with
    | none => (⟨404, .text (notFoundMsg (toString i))⟩, s)
    | some oldNote =>
      (⟨204, .empty⟩,
        updateNote s i (nullish b.title oldNote.title) (nullish b.content oldNote.content)
          (nullish b.user oldNote.user))

/-- `notesRouter.delete('/:id')`: 404 when the id finds no note, otherwise
`deleteNoteById` and 204. -/
def deleteNote (rawId : String) (s : List Note) : Response × List Note :=
  match parseIntJS rawId with
  | none => (⟨404, .text (notFoundMsg "NaN")⟩, s)
  | some i =>
    match getNoteById s i with
    | none => (⟨404, .text (notFoundMsg (toString i))⟩, s)
    | some _ => (⟨204, .empty⟩, deleteNoteById s i)

/-- The six protected operations of the router. -/
inductive RouteCall where
  | create (b : NoteBody)
  | list
  | fetch (rawId : String)
  | replace (rawId : String) (b : NoteBody)
  | patchOp (rawId : String) (b : PatchBody)
  | remove (rawId : String)
deriving Repr, DecidableEq

/-- An incoming request: the `Authorization` header (absent or any value), the
authenticated identity attached to `req.user` by the unseen upstream
mechanism (spec.md §9), and the route called. -/
structure Request where
  authorization : Option String
  user : String
  call : RouteCall
deriving Repr, DecidableEq

/-- `hasAuthentication` middleware (`src/unnamed/part_000`): passes exactly
when the `authorization` header is not `undefined`; its value is never
inspected. -/
def hasAuthentication (auth : Option String) : Bool :=
  match auth with
  | none => false
  | some _ => true

/-- Dispatch of an authenticated request to the matching handler. -/
def handleAuthed (req : Request) (s : List Note) : Response × List Note :=
  match req.call with
  | .create b => postNotes b s
  | .list => getNotesRoute req.user s
  | .fetch rawId => getNote rawId s
  | .replace rawId b => putNote rawId b s
  | .patchOp rawId b => patchNote rawId b s
  | .remove rawId => deleteNote rawId s

/-- A request to any protected route: the `hasAuthentication` gate responds
401 `Unauthorized` and halts when the header is absent, otherwise the
handler runs. -/
def handle (req : Request) (s : List Note) : Response × List Note :=
  if hasAuthentication req.authorization then handleAuthed req s
  else (⟨401, .text "Unauthorized"⟩, s)

/-- `getNoteById` applied to the result of `parseInt`: a failed parse (NaN)
finds no note. -/
def lookupRaw (rawId : String) (s : List Note) : Option Note :=
  match parseIntJS rawId with
  | none => none
  | some i => getNoteById s i

/-! ## Helper lemmas about the modelled data layer -/

/-- Every element of a list of integers is at most the fold of `max` over it
with initial value 0. -/
theorem le_foldr_max (x : Int) (l : List Int) (h : x ∈ l) : x ≤ l.foldr max 0 := by
  induction l with
  | nil => cases h
  | cons y ys ih =>
    rcases List.mem_cons.mp h with rfl | hmem
    · exact le_max_left _ _
    · exact le_trans (ih hmem) (le_max_right _ _)

/-- The storage-assigned id is not the id of any existing note. -/
theorem freshId_not_mem (s : List Note) (n : Note) (h : n ∈ s) : n.id ≠ freshId s := by
  have hle : n.id ≤ (s.map Note.id).foldr max 0 :=
    le_foldr_max n.id (s.map Note.id) (List.mem_map_of_mem Note.id h)
  have : n.id < freshId s := lt_of_le_of_lt hle (by unfold freshId; omega)
  exact ne_of_lt this

/-- Looking the fresh id up right after `addNote` yields exactly the appended
note, whatever the prior state. -/
theorem getNoteById_addNote (s : List Note) (t c u : String) :
    getNoteById (addNote s t c u) (freshId s) = some ⟨freshId s, t, c, u⟩ := by
  unfold getNoteById addNote
  rw [List.find?_append]
  have hnone : s.find? (fun n => n.id == freshId s) = none := by
    rw [List.find?_eq_none]
    intro n hn
    simpa using freshId_not_mem s n hn
  rw [hnone]
  simp

/-- `updateNote` rewrites the looked-up note pointwise: the note found at `i`
afterwards is the note found before with title, content, user replaced. -/
theorem getNoteById_updateNote (s : List Note) (i : Int) (t c u : String) :
    getNoteById (updateNote s i t c u) i =
      (getNoteById s i).map (fun n => { n with title := t, content := c, user := u }) := by
  unfold getNoteById updateNote
  induction s with
  | nil => rfl
  | cons n ns ih =>
    by_cases h : n.id = i
    · simp [List.find?_cons, h]
    · have hb : (n.id == i) = false := by simpa using h
      simp only [List.map_cons, List.find?_cons, hb]
      simpa [hb] using ih

/-- `updateNote` leaves the sequence of ids untouched. -/
theorem ids_updateNote (s : List Note) (i : Int) (t c u : String) :
    (updateNote s i t c u).map Note.id = s.map Note.id := by
  unfold updateNote
  rw [List.map_map]
  apply List.map_congr_left
  intro n _
  by_cases h : n.id = i <;> simp [h]

/-! ## Claim theorems -/

/-- Claim C3: a request to any protected route without an `Authorization`
header gets status 401 and leaves the note collection unchanged; a request
with any non-absent header value passes the gate to the route handler. -/
theorem auth_gate_contract (req : Request) (s : List Note) :
    (req.authorization = none →
      (handle req s).1 = ⟨401, .text "Unauthorized"⟩ ∧ (handle req s).2 = s) ∧
    (∀ v : String, req.authorization = some v → handle req s = handleAuthed req s) := by
  constructor
  · intro h
    simp [handle, hasAuthentication, h]
  · intro v h
    simp [handle, hasAuthentication, h]

/-- Witness for C3 at concrete requests: an unauthenticated list request is
rejected with 401 and no state change, and a request carrying an arbitrary
header value reaches the handler. -/
theorem auth_gate_contract_witness :
    ((handle ⟨none, "bob", .list⟩ [] ).1 = ⟨401, .text "Unauthorized"⟩ ∧
      (handle ⟨none, "bob", .list⟩ [] ).2 = ([] : List Note)) ∧
    handle ⟨some "anything", "bob", .list⟩ [] = handleAuthed ⟨some "anything", "bob", .list⟩ [] :=
  ⟨(auth_gate_contract ⟨none, "bob", .list⟩ []).1 rfl,
    (auth_gate_contract ⟨some "anything", "bob", .list⟩ []).2 "anything" rfl⟩

/-- Claim C4: an authenticated GET /notes as user u answers 200, does not
change the collection, and its body holds exactly the notes owned by u. -/
theorem list_notes_owner_filter (a u : String) (s : List Note) :
    (handle ⟨some a, u, .list⟩ s).1.status = 200 ∧
    (handle ⟨some a, u, .list⟩ s).2 = s ∧
    ∃ ns : List Note, (handle ⟨some a, u, .list⟩ s).1.body = .notes ns ∧
      ∀ n : Note, n ∈ ns ↔ n ∈ s ∧ n.user = u := by
  refine ⟨rfl, rfl, (getNotes s).filter (fun n => n.user == u), rfl, ?_⟩
  intro n
  simp [getNotes, List.mem_filter]

/-- Claim C1, evaluated against the code at the failing input: the GET /:id
handler binds the authenticated user but never compares it, so bob fetching
alice's note with id 1 receives 200 with the note, not the 404 the claim
requires. -/
theorem get_other_users_note_revealed :
    handle ⟨some "Bearer token", "bob", .fetch "1"⟩ [⟨1, "milk", "buy milk", "alice"⟩]
      = (⟨200, .note ⟨1, "milk", "buy milk", "alice"⟩⟩,
          [⟨1, "milk", "buy milk", "alice"⟩]) := rfl

/-- Claim C2, evaluated against the code at the failing input: the POST /
handler performs no ownership comparison, so bob creating a note whose body
user is alice gets 204 and the note is added, not the 403-and-no-change the
claim requires. -/
theorem post_mismatched_user_still_added :
    handle ⟨some "Bearer token", "bob", .create ⟨"milk", "buy milk", "alice"⟩⟩ []
      = (⟨204, .empty⟩, [⟨1, "milk", "buy milk", "alice"⟩]) := rfl

/-- Claim C5: creating a note with title t, content c, user u and then
fetching the id the store assigned (any raw path segment that parses to it)
answers 200 with exactly that note. -/
theorem create_then_fetch_roundtrip (a₁ a₂ u t c rawId : String) (s : List Note)
    (h : parseIntJS rawId = some (freshId s)) :
    handle ⟨some a₂, u, .fetch rawId⟩ (handle ⟨some a₁, u, .create ⟨t, c, u⟩⟩ s).2
      = (⟨200, .note ⟨freshId s, t, c, u⟩⟩, addNote s t c u) := by
  simp [handle, hasAuthentication, handleAuthed, postNotes, getNote, h, getNoteById_addNote]

/-- Witness for C5: on the empty store the assigned id is 1, and fetching
"/notes/1" right after the create returns the created note. -/
theorem create_then_fetch_roundtrip_witness :
    parseIntJS "1" = some (freshId []) ∧
    handle ⟨some "B", "ann", .fetch "1"⟩ (handle ⟨some "B", "ann", .create ⟨"t", "c", "ann"⟩⟩ []).2
      = (⟨200, .note ⟨1, "t", "c", "ann"⟩⟩, addNote [] "t" "c" "ann") :=
  ⟨rfl, create_then_fetch_roundtrip "B" "B" "ann" "t" "c" "1" [] rfl⟩

/-- Claim C6: PATCH on an existing note answers 204 and replaces each of
title, content, user only when the body provides it (`?? old` coalescing);
in particular a body supplying only content leaves title and user at their
prior values. -/
theorem patch_partial_update (a u rawId : String) (b : PatchBody) (i : Int)
    (s : List Note) (old : Note)
    (hp : parseIntJS rawId = some i) (hf : getNoteById s i = some old) :
    (handle ⟨some a, u, .patchOp rawId b⟩ s).1 = ⟨204, .empty⟩ ∧
    getNoteById (handle ⟨some a, u, .patchOp rawId b⟩ s).2 i =
      some ⟨old.id, nullish b.title old.title, nullish b.content old.content,
        nullish b.user old.user⟩ ∧
    (b.title = .undef → b.user = .undef → ∀ cv : String, b.content = .str cv →
      getNoteById (handle ⟨some a, u, .patchOp rawId b⟩ s).2 i =
        some { old with content := cv }) := by
  have hres : handle ⟨some a, u, .patchOp rawId b⟩ s
      = (⟨204, .empty⟩, updateNote s i (nullish b.title old.title)
          (nullish b.content old.content) (nullish b.user old.user)) := by
    simp [handle, hasAuthentication, handleAuthed, patchNote, hp, hf]
  rw [hres]
  refine ⟨rfl, ?_, ?_⟩
  · rw [getNoteById_updateNote, hf]
    rfl
  · intro ht hu cv hc
    rw [getNoteById_updateNote, hf, ht, hu, hc]
    rfl

/-- Witness for C6: patching note 1 with a body supplying only content
changes the content and keeps title, user and id. -/
theorem patch_partial_update_witness :
    parseIntJS "1" = some 1 ∧
    getNoteById [⟨1, "t0", "c0", "ann"⟩] 1 = some ⟨1, "t0", "c0", "ann"⟩ ∧
    getNoteById (handle ⟨some "B", "ann", .patchOp "1" ⟨.undef, .str "c1", .undef⟩⟩
        [⟨1, "t0", "c0", "ann"⟩]).2 1 = some ⟨1, "t0", "c1", "ann"⟩ :=
  ⟨rfl, rfl,
    (patch_partial_update "B" "ann" "1" ⟨.undef, .str "c1", .undef⟩ 1
        [⟨1, "t0", "c0", "ann"⟩] ⟨1, "t0", "c0", "ann"⟩ rfl rfl).2.2 rfl rfl "c1" rfl⟩

/-- Claim C7: a PUT, PATCH or DELETE whose id matches no existing note
(including an unparseable id) answers 404 and leaves the collection exactly
as it was. -/
theorem missing_id_unchanged (a u rawId : String) (b : NoteBody) (pb : PatchBody)
    (s : List Note) (h : lookupRaw rawId s = none) :
    ((handle ⟨some a, u, .replace rawId b⟩ s).1.status = 404 ∧
      (handle ⟨some a, u, .replace rawId b⟩ s).2 = s) ∧
    ((handle ⟨some a, u, .patchOp rawId pb⟩ s).1.status = 404 ∧
      (handle ⟨some a, u, .patchOp rawId pb⟩ s).2 = s) ∧
    ((handle ⟨some a, u, .remove rawId⟩ s).1.status = 404 ∧
      (handle ⟨some a, u, .remove rawId⟩ s).2 = s) := by
  unfold lookupRaw at h
  rcases hp : parseIntJS rawId with _ | i
  · simp [handle, hasAuthentication, handleAuthed, putNote, patchNote, deleteNote, hp]
  · rw [hp] at h
    have hg : getNoteById s i = none := h
    simp [handle, hasAuthentication, handleAuthed, putNote, patchNote, deleteNote, hp, hg]

/-- Witness for C7: id 5 on the empty collection — all three mutating routes
answer 404 and the collection stays empty. -/
theorem missing_id_unchanged_witness :
    lookupRaw "5" ([] : List Note) = none ∧
    (handle ⟨some "B", "ann", .replace "5" ⟨"t", "c", "ann"⟩⟩ ([] : List Note)).1.status = 404 ∧
    (handle ⟨some "B", "ann", .patchOp "5" ⟨.undef, .undef, .undef⟩⟩ ([] : List Note)).2 = [] ∧
    (handle ⟨some "B", "ann", .remove "5"⟩ ([] : List Note)).1.status = 404 :=
  have happ := missing_id_unchanged "B" "ann" "5" ⟨"t", "c", "ann"⟩
    ⟨.undef, .undef, .undef⟩ [] rfl
  ⟨rfl, happ.1.1, happ.2.1.2, happ.2.2.1⟩

/-- Claim C9: when the :id segment does not parse to an integer (`parseInt`
yields NaN), every /:id handler answers 404 with the NaN-rendered message and
the collection is unchanged; the embedding is total, so no handler faults. -/
theorem nan_id_not_found (a u rawId : String) (b : NoteBody) (pb : PatchBody)
    (s : List Note) (h : parseIntJS rawId = none) :
    handle ⟨some a, u, .fetch rawId⟩ s = (⟨404, .text (notFoundMsg "NaN")⟩, s) ∧
    handle ⟨some a, u, .replace rawId b⟩ s = (⟨404, .text (notFoundMsg "NaN")⟩, s) ∧
    handle ⟨some a, u, .patchOp rawId pb⟩ s = (⟨404, .text (notFoundMsg "NaN")⟩, s) ∧
    handle ⟨some a, u, .remove rawId⟩ s = (⟨404, .text (notFoundMsg "NaN")⟩, s) := by
  simp [handle, hasAuthentication, handleAuthed, getNote, putNote, patchNote, deleteNote, h]

/-- Witness for C9: the non-numeric id "abc" parses to NaN and a GET on it
answers 404 without touching the one-note collection. -/
theorem nan_id_not_found_witness :
    parseIntJS "abc" = none ∧
    handle ⟨some "B", "ann", .fetch "abc"⟩ [⟨1, "t", "c", "ann"⟩]
      = (⟨404, .text (notFoundMsg "NaN")⟩, [⟨1, "t", "c", "ann"⟩]) :=
  ⟨rfl, (nan_id_not_found "B" "ann" "abc" ⟨"t", "c", "ann"⟩ ⟨.undef, .undef, .undef⟩
    [⟨1, "t", "c", "ann"⟩] rfl).1⟩

/-- Replace a `null` body field by an absent one; `??` cannot tell them
apart. -/
def nullToUndef (f : Field) : Field :=
  match f with
  | .null => .undef
  | f => f

/-- `??` coalescing is blind to the difference between null and absent. -/
theorem nullish_nullToUndef (f : Field) (d : String) :
    nullish (nullToUndef f) d = nullish f d := by
  cases f <;> rfl

/-- Claim C10: a PATCH body field set to null behaves exactly like an absent
field (the prior value is retained), while a field set to the empty string
counts as provided and overwrites the prior value. -/
theorem patch_null_as_absent (a u rawId : String) (b : PatchBody)
    (i : Int) (s : List Note) (old : Note)
    (hp : parseIntJS rawId = some i) (hf : getNoteById s i = some old) :
    handle ⟨some a, u, .patchOp rawId b⟩ s
      = handle ⟨some a, u, .patchOp rawId
          ⟨nullToUndef b.title, nullToUndef b.content, nullToUndef b.user⟩⟩ s ∧
    getNoteById (handle ⟨some a, u, .patchOp rawId ⟨b.title, .str "", b.user⟩⟩ s).2 i
      = some ⟨old.id, nullish b.title old.title, "", nullish b.user old.user⟩ := by
  constructor
  · simp [handle, hasAuthentication, handleAuthed, patchNote, hp, hf, nullish_nullToUndef]
  · have hres : handle ⟨some a, u, .patchOp rawId ⟨b.title, .str "", b.user⟩⟩ s
        = (⟨204, .empty⟩, updateNote s i (nullish b.title old.title)
            "" (nullish b.user old.user)) := by
      simp [handle, hasAuthentication, handleAuthed, patchNote, hp, hf, nullish]
    rw [hres, getNoteById_updateNote, hf]
    rfl

/-- Witness for C10: on note 1, a PATCH whose title is null and whose content
is the empty string behaves like an absent title — and the empty content is
written. -/
theorem patch_null_as_absent_witness :
    parseIntJS "1" = some 1 ∧
    getNoteById [⟨1, "t0", "c0", "ann"⟩] 1 = some ⟨1, "t0", "c0", "ann"⟩ ∧
    handle ⟨some "B", "ann", .patchOp "1" ⟨.null, .null, .null⟩⟩ [⟨1, "t0", "c0", "ann"⟩]
      = handle ⟨some "B", "ann", .patchOp "1" ⟨.undef, .undef, .undef⟩⟩ [⟨1, "t0", "c0", "ann"⟩] ∧
    getNoteById (handle ⟨some "B", "ann", .patchOp "1" ⟨.null, .str "", .null⟩⟩
        [⟨1, "t0", "c0", "ann"⟩]).2 1 = some ⟨1, "t0", "", "ann"⟩ :=
  have happ := patch_null_as_absent "B" "ann" "1" ⟨.null, .null, .null⟩ 1
    [⟨1, "t0", "c0", "ann"⟩] ⟨1, "t0", "c0", "ann"⟩ rfl rfl
  ⟨rfl, rfl, happ.1, happ.2⟩

/-- A mutating operation of the router: create, replace, partial update or
delete, with the raw path segment and body it was called with. -/
inductive Op where
  | create (b : NoteBody)
  | replace (rawId : String) (b : NoteBody)
  | patchOp (rawId : String) (b : PatchBody)
  | remove (rawId : String)
deriving Repr, DecidableEq

/-- The state left behind by one mutating route handler. -/
def applyOp (s : List Note) (op : Op) : List Note :=
  match op with
  | .create b => (postNotes b s).2
  | .replace rawId b => (putNote rawId b s).2
  | .patchOp rawId b => (patchNote rawId b s).2
  | .remove rawId => (deleteNote rawId s).2

/-- The state after a whole sequence of mutating requests. -/
def applyOps (ops : List Op) (s : List Note) : List Note :=
  ops.foldl applyOp s

/-- No two notes of the collection share an id. -/
def idsNodup (s : List Note) : Prop := (s.map Note.id).Nodup

/-- Each mutating handler preserves id uniqueness: create appends a fresh id,
replace and partial update never touch ids, delete only removes notes. -/
theorem idsNodup_applyOp (s : List Note) (op : Op) (h : idsNodup s) :
    idsNodup (applyOp s op) := by
  unfold idsNodup at h ⊢
  cases op with
  | create b =>
    show (((addNote s b.title b.content b.user).map Note.id)).Nodup
    unfold addNote
    rw [List.map_append, List.nodup_append]
    refine ⟨h, by simp, ?_⟩
    intro x hx hx1
    rcases List.mem_map.mp hx with ⟨n, hn, rfl⟩
    have hid : n.id = freshId s := by simpa using hx1
    exact freshId_not_mem s n hn hid
  | replace rawId b =>
    rcases hp : parseIntJS rawId with _ | i
    · simpa [applyOp, putNote, hp] using h
    · rcases hg : getNoteById s i with _ | old
      · simpa [applyOp, putNote, hp, hg] using h
      · simpa [applyOp, putNote, hp, hg, ids_updateNote] using h
  | patchOp rawId b =>
    rcases hp : parseIntJS rawId with _ | i
    · simpa [applyOp, patchNote, hp] using h
    · rcases hg : getNoteById s i with _ | old
      · simpa [applyOp, patchNote, hp, hg] using h
      · simpa [applyOp, patchNote, hp, hg, ids_updateNote] using h
  | remove rawId =>
    rcases hp : parseIntJS rawId with _ | i
    · simpa [applyOp, deleteNote, hp] using h
    · rcases hg : getNoteById s i with _ | old
      · simpa [applyOp, deleteNote, hp, hg] using h
      · have hsub : List.Sublist (deleteNoteById s i) s := List.filter_sublist s
        have : ((deleteNoteById s i).map Note.id).Nodup :=
          List.Nodup.sublist (List.Sublist.map Note.id hsub) h
        simpa [applyOp, deleteNote, hp, hg] using this

/-- Claim C8: every state reachable from the empty collection by any sequence
of create, replace, partial-update and delete requests has pairwise distinct
note ids. -/
theorem reachable_ids_unique (ops : List Op) : idsNodup (applyOps ops []) := by
  have key : ∀ (l : List Op) (s : List Note), idsNodup s → idsNodup (applyOps l s) := by
    intro l
    induction l with
    | nil => intro s h; exact h
    | cons op rest ih =>
      intro s h
      exact ih (applyOp s op) (idsNodup_applyOp s op h)
  exact key ops [] (by simp [idsNodup])

end NotesApp
